import Mathlib

/-!
Verification of the `moat_temp_hum_ble` BLE advertisement parser and per-device
aggregator.  The definitions below are a shallow embedding of
`custom_components/moat_temp_hum_ble/temp_hum_advertisement_parser.py`,
`sensor_device.py` and `const.py`.  Python byte strings become `List ℕ`
(each element `< 256` for real inputs), Python floats become `ℚ` with the
source's decimal literals written as exact fractions, Python ints become
`ℕ`/`ℤ`, and a caught exception (`except (ValueError, IndexError)`) becomes an
explicit early return carrying the state reached so far.
-/

/-- Python slice `l[a:b]` for nonnegative bounds: clamped to the list, empty
when `b ≤ a`. -/
def pySlice {α : Type} (l : List α) (a b : ℕ) : List α :=
  (l.drop a).take (b - a)

/-- Lower-case hex digit character for `n < 16` (`'0'..'9'`, `'a'..'f'`). -/
def hexDigitChar (n : ℕ) : Char :=
  if n < 10 then Char.ofNat (48 + n) else Char.ofNat (87 + n)

/-- Models `hex_string(bs).replace(" ", "")`, the composition used at every call
site in the parser: bleson's `hex_string` renders each byte as two lower-case
hex digits (`format(b, "02x")` for `b < 256`, guaranteed by Python `bytes`)
separated by spaces, and the `.replace` drops the spaces. -/
def hex_string (bs : List ℕ) : String :=
  String.mk ((bs.map fun b => [hexDigitChar (b / 16), hexDigitChar (b % 16)]).flatten)

/-- Upper-case hex digit character for `n < 16`. -/
def hexDigitCharUpper (n : ℕ) : Char :=
  if n < 10 then Char.ofNat (48 + n) else Char.ofNat (55 + n)

/-- `reverse_mac` (temp_hum_advertisement_parser.py lines 43-48): `None` unless
exactly six octets; otherwise reverse the octets and render them as
colon-separated upper-case hex (`(":".join(octets)).upper()`). -/
def reverse_mac (mac_bytes : List ℕ) : Option String :=
  if mac_bytes.length = 6 then
    some (String.intercalate ":"
      (mac_bytes.reverse.map fun b =>
        String.mk [hexDigitCharUpper (b / 16), hexDigitCharUpper (b % 16)]))
  else none

/-- `little_endian_to_unsigned_int` (lines 51-52):
`int.from_bytes(bytes_to_convert, byteorder="little", signed=False)`. -/
def little_endian_to_unsigned_int (bytes_to_convert : List ℕ) : ℕ :=
  bytes_to_convert.foldr (fun b acc => b + 256 * acc) 0

/-- Models `int(hex_string(bs).replace(" ", ""), 16)`: parsing the concatenated
two-digit hex renderings of the bytes back as one hex number yields the
big-endian base-256 value of the bytes (each `< 256` for Python `bytes`). -/
def hexValueBE (bs : List ℕ) : ℕ :=
  bs.foldl (fun acc b => acc * 256 + b) 0

/-- `twos_complement(n, w=16)` (lines 22-27). -/
def twos_complement (n : ℕ) (w : ℕ := 16) : ℤ :=
  if n &&& (1 <<< (w - 1)) ≠ 0 then (n : ℤ) - ((1 <<< w : ℕ) : ℤ) else (n : ℤ)

/-- `decode_govee_temp` (lines 30-37).  `//` is Python floor division (here on
nonnegative ints, i.e. `Nat` division) and `/ -10.0` is exact in `ℚ`. -/
def decode_govee_temp (packet_value : ℕ) : ℚ :=
  if packet_value &&& 0x800000 ≠ 0 then
    (((packet_value ^^^ 0x800000) / 1000 : ℕ) : ℚ) / (-10)
  else
    ((packet_value / 1000 : ℕ) : ℚ) / 10

/-- `rescale_clamped` (lines 55-63). -/
def rescale_clamped (value in_min in_max out_min out_max : ℚ) : ℚ :=
  if value ≥ in_max then out_max
  else if value ≤ in_min then out_min
  else out_min + (out_max - out_min) * (value - in_min) / (in_max - in_min)

/-- `moat_s2_battery_voltage_to_percentage` (lines 66-70):
`rescale_clamped(battery_voltage_mvolts, 2760, 2820, 1.0, 100.0)`. -/
def moat_s2_battery_voltage_to_percentage (battery_voltage_mvolts : ℕ) : ℚ :=
  rescale_clamped (battery_voltage_mvolts : ℚ) 2760 2820 1 100

/-- Python `int(x)` applied to a float: truncation toward zero. -/
def pyInt (q : ℚ) : ℤ := if 0 ≤ q then ⌊q⌋ else ⌈q⌉

/-- bleson's `rssi_from_byte` (external dependency): reinterpret the byte as a
signed 8-bit integer. -/
def rssi_from_byte (b : ℕ) : ℤ := if 128 ≤ b then (b : ℤ) - 256 else (b : ℤ)

/-- bleson GAP AD-type constants (external dependency): Flags. -/
def GAP_FLAGS : ℕ := 0x01

/-- bleson GAP AD-type constants: Complete Local Name. -/
def GAP_NAME_COMPLETE : ℕ := 0x09

/-- bleson GAP AD-type constants: Service Data. -/
def GAP_SERVICE_DATA : ℕ := 0x16

/-- bleson GAP AD-type constants: Manufacturer Specific Data. -/
def GAP_MFG_DATA : ℕ := 0xFF

/-- The attributes mutated by the GAP record loop of
`TempHumAdvertisement.__init__` (lines 104-142): `flags` starts at `6`; `name`
starts as `None`; `mfg_data` starts unassigned (so `hasattr` is false, modelled
by `none`). -/
structure GapState where
  flags : ℕ
  name : Option (List ℕ)
  mfg_data : Option (List ℕ)
deriving DecidableEq

/-- The state of the three record-loop attributes before the loop runs. -/
def initGapState : GapState := ⟨6, none, none⟩

/-- One step of the GAP record loop (lines 113-142), fuelled so that it is
structurally recursive.  `none` signals a read of an index outside the buffer
or fuel exhaustion — `gapWalkAux_isSome` proves neither ever happens.  The `Bool`
is `true` when the loop was aborted by an exception that `__init__` catches:
`payload[0]` on an empty Flags payload (IndexError) or a non-ASCII byte in
`payload.decode("ascii")` (UnicodeDecodeError, a ValueError). -/
def gapWalkAux (data : List ℕ) : ℕ → ℕ → GapState → Option (GapState × Bool)
  | 0, pos, st =>
    if pos < data.length - 1 then none else some (st, false)
  | fuel + 1, pos, st =>
    if pos < data.length - 1 then
      match data[pos]?, data[pos + 1]? with
      | some len, some gap_type =>
        let payload := pySlice data (pos + 2) (pos + 2 + len - 1)
        if gap_type = GAP_FLAGS then
          (match payload with
            | [] => some (st, true)
            | b :: _ => gapWalkAux data fuel (pos + len + 1) { st with flags := b })
        else if gap_type = GAP_NAME_COMPLETE then
          if payload.all (fun c => decide (c < 128)) then
            gapWalkAux data fuel (pos + len + 1) { st with name := some payload }
          else
            some (st, true)
        else if gap_type = GAP_SERVICE_DATA then
          gapWalkAux data fuel (pos + len + 1) { st with mfg_data := some payload }
        else if gap_type = GAP_MFG_DATA then
          gapWalkAux data fuel (pos + len + 1) { st with mfg_data := some payload }
        else
          gapWalkAux data fuel (pos + len + 1) st
      | _, _ => none
    else some (st, false)

/-- The GAP record walk of `__init__`: start at `pos = 10`, run `while
pos < len(data) - 1`.  Each iteration advances `pos` by at least one, so
`data.length` steps of fuel always suffice (proved in `gapWalkAux_isSome`). -/
def gapWalk (data : List ℕ) : Option (GapState × Bool) :=
  gapWalkAux data data.length 10 initGapState

/-- `TempHumAdvertisement._mfg_data_check` (lines 223-229). -/
def mfg_data_check (st : GapState) (data_length flags : ℕ) : Bool :=
  match st.mfg_data with
  | none => false
  | some m => m.length == data_length && st.flags == flags

/-- `TempHumAdvertisement._mfg_data_service_uuid_check` (lines 231-237). -/
def mfg_data_service_uuid_check (st : GapState) (service_uuid : String) : Bool :=
  match st.mfg_data with
  | none => false
  | some m => decide (2 < m.length) && (hex_string (pySlice m 0 2) == service_uuid)

/-- `check_is_gvh5074` (line 205): `_mfg_data_check(9, 6)`. -/
def check_is_gvh5074 (st : GapState) : Bool := mfg_data_check st 9 6

/-- `check_is_gvh5102` (line 209). -/
def check_is_gvh5102 (st : GapState) : Bool :=
  mfg_data_check st 8 5 && mfg_data_service_uuid_check st "0100"

/-- `check_is_gvh5075_gvh5072` (line 213). -/
def check_is_gvh5075_gvh5072 (st : GapState) : Bool :=
  mfg_data_check st 8 5 && mfg_data_service_uuid_check st "88ec"

/-- `check_is_gvh5051` (line 217): `_mfg_data_check(11, 6)`. -/
def check_is_gvh5051 (st : GapState) : Bool := mfg_data_check st 11 6

/-- `check_is_moat_s2` (line 221). -/
def check_is_moat_s2 (st : GapState) : Bool :=
  mfg_data_check st 20 6 && mfg_data_service_uuid_check st "0010"

/-- `DeviceBrand` from const.py. -/
inductive DeviceBrand where
  | MOAT
  | GOVEE
deriving DecidableEq

/-- The `packet` attribute holds a hex string for Moat S2 and Govee H5074/H5051
and an `int` for Govee H5075/H5102. -/
inductive PacketVal where
  | hexstr (s : String)
  | num (n : ℕ)
deriving DecidableEq

/-- The attributes of a `TempHumAdvertisement` after `__init__` returns.  A
field is `none` when the Python attribute is `None` or was never assigned
(because a caught exception cut initialisation short). -/
structure Advertisement where
  mac : Option String
  rssi : Option ℤ
  flags : Option ℕ
  name : Option (List ℕ)
  mfg_data : Option (List ℕ)
  packet : Option PacketVal
  temperature : Option ℚ
  humidity : Option ℚ
  battery : Option ℤ
  battery_millivolts : Option ℕ
  model : Option String
deriving DecidableEq

/-- The brand dispatch and per-model decoding of `__init__` (lines 144-190),
run after the GAP record loop.  Decimal float literals of the source are
written as exact fractions: `-46.85 = -4685/100`, `175.72 = 17572/100`,
`65536.0 = 65536`.  For Govee H5074/H5051 the hex-string digit swap
`temp_lsb = s[2:4] + s[0:2]` on the rendering of `mfg_data[3:7]` makes
`int(temp_lsb, 16) = m[4] * 256 + m[3]` and likewise for humidity. -/
def decodeMfg (base : Advertisement) (st : GapState) (brand : DeviceBrand) :
    Advertisement :=
  if brand = DeviceBrand.MOAT ∧ check_is_moat_s2 st then
    let m := st.mfg_data.getD []
    { base with
      temperature := some (-(4685/100) +
        (17572/100) * ((little_endian_to_unsigned_int (pySlice m 12 14) : ℚ) / 65536)),
      humidity := some (-6 +
        125 * ((little_endian_to_unsigned_int (pySlice m 14 16) : ℚ) / 65536)),
      battery_millivolts := some (little_endian_to_unsigned_int (pySlice m 16 18)),
      battery := some (pyInt (moat_s2_battery_voltage_to_percentage
        (little_endian_to_unsigned_int (pySlice m 16 18)))),
      packet := some (PacketVal.hexstr (hex_string (pySlice m 8 18))) }
  else if brand = DeviceBrand.GOVEE then
    if check_is_gvh5075_gvh5072 st then
      let m := st.mfg_data.getD []
      let packet := hexValueBE (pySlice m 3 6)
      { base with
        packet := some (PacketVal.num packet),
        temperature := some (decode_govee_temp packet),
        humidity := some (((packet % 1000 : ℕ) : ℚ) / 10),
        battery := some ((m.getD 6 0 : ℕ) : ℤ),
        model := some "Govee H5072/H5075" }
    else if check_is_gvh5102 st then
      let m := st.mfg_data.getD []
      let packet := hexValueBE (pySlice m 4 7)
      { base with
        packet := some (PacketVal.num packet),
        temperature := some (decode_govee_temp packet),
        humidity := some (((packet % 1000 : ℕ) : ℚ) / 10),
        battery := some ((m.getD 7 0 : ℕ) : ℤ),
        model := some "Govee H5101/H5102" }
    else if check_is_gvh5074 st || check_is_gvh5051 st then
      let m := st.mfg_data.getD []
      { base with
        packet := some (PacketVal.hexstr
          (hex_string [m.getD 4 0, m.getD 3 0, m.getD 6 0, m.getD 5 0])),
        humidity := some (((m.getD 6 0 * 256 + m.getD 5 0 : ℕ) : ℚ) / 100),
        temperature := some (((twos_complement (m.getD 4 0 * 256 + m.getD 3 0) 16 : ℤ) : ℚ) / 100),
        battery := some ((m.getD 7 0 : ℕ) : ℤ),
        model := some "Govee H5074/H5051" }
    else base
  else base

/-- `__init__` after `data[-1]` succeeded: record the RSSI, run the GAP record
loop (its `none` case cannot occur, see `gapWalkAux_isSome`, and is defaulted to
an aborted walk), and decode unless the loop was aborted by a caught
exception. -/
def parseRest (data : List ℕ) (brand : DeviceBrand) (mac : Option String)
    (lastByte : ℕ) : Advertisement :=
  let ws := (gapWalk data).getD (initGapState, true)
  let base : Advertisement :=
    { mac := mac, rssi := some (rssi_from_byte lastByte), flags := some ws.1.flags,
      name := ws.1.name, mfg_data := ws.1.mfg_data, packet := none,
      temperature := none, humidity := none, battery := none,
      battery_millivolts := none, model := none }
  if ws.2 then base else decodeMfg base ws.1 brand

/-- `parse_ble_advertisement` (lines 240-241), i.e. `TempHumAdvertisement`'s
`__init__` (lines 85-201).  On empty input, `data[-1]` raises an IndexError
that the `try` block catches after only `self.mac` was assigned. -/
def parse_ble_advertisement (data : List ℕ) (brand : DeviceBrand) : Advertisement :=
  let mac := reverse_mac (pySlice data 3 9)
  match data.getLast? with
  | none =>
    { mac := mac, rssi := none, flags := none, name := none, mfg_data := none,
      packet := none, temperature := none, humidity := none, battery := none,
      battery_millivolts := none, model := none }
  | some lastByte => parseRest data brand mac lastByte

/-- `HUMIDITY_MIN` from const.py (line 50). -/
def HUMIDITY_MIN : ℚ := 0

/-- `HUMIDITY_MAX` from const.py (line 51): `99.9`. -/
def HUMIDITY_MAX : ℚ := 999/10

/-- homeassistant's `celsius_to_fahrenheit` (external dependency):
`celsius * 1.8 + 32.0`, with `1.8 = 18/10` exact in `ℚ`. -/
def celsius_to_fahrenheit (celsius : ℚ) : ℚ := celsius * (18/10) + 32

/-- Python `round(x)` to an integer: round half to even (banker's rounding). -/
def pyRound (q : ℚ) : ℤ :=
  if q - ⌊q⌋ < 1/2 then ⌊q⌋
  else if (1/2 : ℚ) < q - ⌊q⌋ then ⌊q⌋ + 1
  else if ⌊q⌋ % 2 = 0 then ⌊q⌋ else ⌊q⌋ + 1

/-- Python `round(x, ndigits)`: banker's rounding at `ndigits` decimal places
(idealised to exact decimal arithmetic, as the spec does). -/
def pyRoundTo (q : ℚ) (ndigits : ℤ) : ℚ :=
  (pyRound (q * 10 ^ ndigits) : ℚ) / 10 ^ ndigits

/-- `statistics.mean`: the exact arithmetic mean; `StatisticsError` on an empty
list becomes `none`. -/
def stsMean (l : List ℚ) : Option ℚ :=
  if l = [] then none else some (l.sum / l.length)

/-- `statistics.median`: middle element of the sorted list, or the mean of the
two middle elements; `StatisticsError` on an empty list becomes `none`. -/
def stsMedian (l : List ℚ) : Option ℚ :=
  if l = [] then none
  else
    let s := l.insertionSort (· ≤ ·)
    if l.length % 2 = 1 then some (s.getD (l.length / 2) 0)
    else some ((s.getD (l.length / 2 - 1) 0 + s.getD (l.length / 2) 0) / 2)

/-- `CreateDeviceParams` from sensor_device.py (lines 16-25).  `decimal_places`
is a Python `Optional[int]`; the temperature range bounds and calibration
offsets are numeric (the defaults in const.py are floats). -/
structure CreateDeviceParams where
  report_fahrenheit : Bool
  decimal_places : Option ℤ
  log_spikes : Bool
  temp_range_min : ℚ
  temp_range_max : ℚ
  description : Option String := none
  calibrate_temp : ℚ := 0
  calibrate_humidity : ℚ := 0
deriving DecidableEq

/-- The state of a `SensorDevice` (sensor_device.py lines 28-84). -/
structure SensorDevice where
  mac : String
  detected_model : Option String
  desc : Option String
  report_fahrenheit : Bool
  decimal_places : Option ℤ
  log_spikes : Bool
  temp_range_min : ℚ
  temp_range_max : ℚ
  calibrate_temp : ℚ
  calibrate_humidity : ℚ
  num_measurements : ℕ
  rssi_measurements : List ℤ
  temperature_measurements : List ℚ
  humidity_measurements : List ℚ
  battery_percentage_measurements : List ℤ
  battery_millivolt_measurements : List ℤ
  latest_raw_data_str : Option String
deriving DecidableEq

/-- `SensorDevice.reset` (lines 76-84). -/
def SensorDevice.reset (d : SensorDevice) : SensorDevice :=
  { d with
    num_measurements := 0,
    rssi_measurements := [],
    temperature_measurements := [],
    humidity_measurements := [],
    battery_percentage_measurements := [],
    battery_millivolt_measurements := [],
    latest_raw_data_str := none }

/-- `SensorDevice.__init__` (lines 62-74): copy the configuration, set
`_detected_model = None`, then `reset()`. -/
def mkSensorDevice (mac : String) (p : CreateDeviceParams) : SensorDevice :=
  SensorDevice.reset
    { mac := mac, detected_model := none, desc := p.description,
      report_fahrenheit := p.report_fahrenheit, decimal_places := p.decimal_places,
      log_spikes := p.log_spikes, temp_range_min := p.temp_range_min,
      temp_range_max := p.temp_range_max, calibrate_temp := p.calibrate_temp,
      calibrate_humidity := p.calibrate_humidity, num_measurements := 0,
      rssi_measurements := [], temperature_measurements := [],
      humidity_measurements := [], battery_percentage_measurements := [],
      battery_millivolt_measurements := [], latest_raw_data_str := none }

/-- `SensorDevice.append_rssi` (lines 164-167): append only an `int` value that
is strictly negative (`None` fails the `isinstance` check). -/
def SensorDevice.append_rssi (d : SensorDevice) (value : Option ℤ) : SensorDevice :=
  match value with
  | some v =>
    if v < 0 then { d with rssi_measurements := d.rssi_measurements ++ [v] } else d
  | none => d

/-- The temperature step of `SensorDevice.update` (lines 262-269): append when
present and inside the configured range, otherwise only (maybe) log. -/
def recordTemperature (d : SensorDevice) (temperature : Option ℚ) : SensorDevice :=
  match temperature with
  | some t =>
    if d.temp_range_min ≤ t ∧ t ≤ d.temp_range_max then
      { d with temperature_measurements := d.temperature_measurements ++ [t] }
    else d
  | none => d

/-- The humidity step of `SensorDevice.update` (lines 271-275): the bounds are
the fixed `HUMIDITY_MIN`/`HUMIDITY_MAX` from const.py. -/
def recordHumidity (d : SensorDevice) (humidity : Option ℚ) : SensorDevice :=
  match humidity with
  | some h =>
    if HUMIDITY_MIN ≤ h ∧ h ≤ HUMIDITY_MAX then
      { d with humidity_measurements := d.humidity_measurements ++ [h] }
    else d
  | none => d

/-- The battery-percentage step of `SensorDevice.update` (lines 277-285):
bounds `0 ≤ value ≤ 100`. -/
def recordBatteryPercentage (d : SensorDevice) (battery_percentage : Option ℤ) :
    SensorDevice :=
  match battery_percentage with
  | some b =>
    if 0 ≤ b ∧ b ≤ 100 then
      { d with battery_percentage_measurements := d.battery_percentage_measurements ++ [b] }
    else d
  | none => d

/-- The battery-millivolts step of `SensorDevice.update` (lines 287-289): no
range check, append whenever present. -/
def recordBatteryMillivolts (d : SensorDevice) (battery_millivolts : Option ℤ) :
    SensorDevice :=
  match battery_millivolts with
  | some mv =>
    { d with battery_millivolt_measurements := d.battery_millivolt_measurements ++ [mv] }
  | none => d

/-- Python `str(packet)` for the `Optional[Union[int, str]]` raw packet. -/
def pyStr (packet : Option PacketVal) : String :=
  match packet with
  | none => "None"
  | some (PacketVal.hexstr s) => s
  | some (PacketVal.num n) => toString n

/-- `SensorDevice.update` (lines 254-292): the four independent range-checked
appends, then `_latest_raw_data_str = str(packet)` and the attempt counter
increment, both unconditional. -/
def SensorDevice.update (d : SensorDevice) (temperature humidity : Option ℚ)
    (battery_percentage battery_millivolts : Option ℤ) (packet : Option PacketVal) :
    SensorDevice :=
  let d1 := recordTemperature d temperature
  let d2 := recordHumidity d1 humidity
  let d3 := recordBatteryPercentage d2 battery_percentage
  let d4 := recordBatteryMillivolts d3 battery_millivolts
  { d4 with
    latest_raw_data_str := some (pyStr packet),
    num_measurements := d4.num_measurements + 1 }

/-- `SensorDevice.mean_temperature` (lines 169-188): mean of the accepted
samples, °C→°F conversion if configured, then the calibration offset, then
rounding if configured. -/
def SensorDevice.mean_temperature (d : SensorDevice) : Option ℚ :=
  match stsMean d.temperature_measurements with
  | none => none
  | some avg =>
    let avg := if d.report_fahrenheit then celsius_to_fahrenheit avg else avg
    let calibrated_avg := avg + d.calibrate_temp
    some (match d.decimal_places with
      | some dp => pyRoundTo calibrated_avg dp
      | none => calibrated_avg)

/-- `SensorDevice.median_temperature` (lines 190-211). -/
def SensorDevice.median_temperature (d : SensorDevice) : Option ℚ :=
  match stsMedian d.temperature_measurements with
  | none => none
  | some avg =>
    let avg := if d.report_fahrenheit then celsius_to_fahrenheit avg else avg
    let calibrated_avg := avg + d.calibrate_temp
    some (match d.decimal_places with
      | some dp => pyRoundTo calibrated_avg dp
      | none => calibrated_avg)

/-- `SensorDevice.mean_humidity` (lines 213-230). -/
def SensorDevice.mean_humidity (d : SensorDevice) : Option ℚ :=
  match stsMean d.humidity_measurements with
  | none => none
  | some avg =>
    let calibrated_avg := avg + d.calibrate_humidity
    some (match d.decimal_places with
      | some dp => pyRoundTo calibrated_avg dp
      | none => calibrated_avg)

/-- `SensorDevice.median_humidity` (lines 232-249). -/
def SensorDevice.median_humidity (d : SensorDevice) : Option ℚ :=
  match stsMedian d.humidity_measurements with
  | none => none
  | some avg =>
    let calibrated_avg := avg + d.calibrate_humidity
    some (match d.decimal_places with
      | some dp => pyRoundTo calibrated_avg dp
      | none => calibrated_avg)

/-- `SensorDevice.battery_percentage` (lines 140-146):
`round(statistics.mean(list))`, `None` when the list is empty. -/
def SensorDevice.battery_percentage (d : SensorDevice) : Option ℤ :=
  match stsMean (d.battery_percentage_measurements.map (fun z => (z : ℚ))) with
  | none => none
  | some avg => some (pyRound avg)

/-- `SensorDevice.battery_millivolts` (lines 148-154). -/
def SensorDevice.battery_millivolts (d : SensorDevice) : Option ℤ :=
  match stsMean (d.battery_millivolt_measurements.map (fun z => (z : ℚ))) with
  | none => none
  | some avg => some (pyRound avg)

/-- `SensorDevice.rssi` (lines 156-162): the average RSSI. -/
def SensorDevice.rssi (d : SensorDevice) : Option ℤ :=
  match stsMean (d.rssi_measurements.map (fun z => (z : ℚ))) with
  | none => none
  | some avg => some (pyRound avg)

/-- One call arriving at a `SensorDevice` during a period: `update` (from a
parsed advertisement's measurement fields) or `append_rssi`. -/
inductive DeviceOp where
  | upd (temperature humidity : Option ℚ) (battery_percentage battery_millivolts : Option ℤ)
      (packet : Option PacketVal)
  | appendRssi (value : Option ℤ)

/-- Apply one aggregator call. -/
def applyOp (d : SensorDevice) : DeviceOp → SensorDevice
  | DeviceOp.upd t h bp mv p => d.update t h bp mv p
  | DeviceOp.appendRssi v => d.append_rssi v

/-- Apply a sequence of aggregator calls in order. -/
def runOps (d : SensorDevice) (ops : List DeviceOp) : SensorDevice :=
  ops.foldl applyOp d

/-- The spec's aggregator invariant: every accepted sample satisfies its own
range predicate. -/
def measurementInvariant (d : SensorDevice) : Prop :=
  (∀ t ∈ d.temperature_measurements, d.temp_range_min ≤ t ∧ t ≤ d.temp_range_max) ∧
  (∀ h ∈ d.humidity_measurements, HUMIDITY_MIN ≤ h ∧ h ≤ HUMIDITY_MAX) ∧
  (∀ b ∈ d.battery_percentage_measurements, 0 ≤ b ∧ b ≤ 100) ∧
  (∀ r ∈ d.rssi_measurements, r < 0)

/-- With fuel at least `data.length - pos`, the fuelled GAP record loop never
exhausts its fuel and never attempts an out-of-range index read: the two reads
`data[pos]` and `data[pos + 1]` happen only under `pos < data.length - 1`, and
every iteration advances `pos` by `length + 1 ≥ 1`. -/
theorem gapWalkAux_isSome (data : List ℕ) :
    ∀ (fuel pos : ℕ) (st : GapState), data.length - pos ≤ fuel →
      (gapWalkAux data fuel pos st).isSome = true := by
  intro fuel
  induction fuel with
  | zero =>
    intro pos st h
    rw [gapWalkAux, if_neg (by omega)]
    rfl
  | succ fuel ih =>
    intro pos st h
    rw [gapWalkAux]
    by_cases hlt : pos < data.length - 1
    · rw [if_pos hlt]
      have h1 : pos < data.length := by omega
      have h2 : pos + 1 < data.length := by omega
      rw [List.getElem?_eq_getElem h1, List.getElem?_eq_getElem h2]
      dsimp only
      split
      · split
        · rfl
        · exact ih _ _ (by omega)
      · split
        · split
          · exact ih _ _ (by omega)
          · rfl
        · split
          · exact ih _ _ (by omega)
          · split
            · exact ih _ _ (by omega)
            · exact ih _ _ (by omega)
    · rw [if_neg hlt]
      rfl

/-- C5: for every input byte buffer, the GAP record walk starting at offset 10
never reads an index past the end of the buffer, and a record length that
would run past the end of the GAP region just ends the scan without an error:
the walk always returns a result (`gapWalkAux` yields `none` exactly when a
read out of range or fuel exhaustion would occur, and neither ever does). -/
theorem gapWalk_never_reads_out_of_bounds (data : List ℕ) :
    (gapWalk data).isSome = true :=
  gapWalkAux_isSome data data.length 10 initGapState (by omega)

/-- C3: the Govee 24-bit packed temperature decode: with the 0x800000 bit set,
the value xor 0x800000, integer-divided by 1000, negated, then divided by 10;
otherwise the value integer-divided by 1000, divided by 10. -/
theorem decode_govee_temp_formula (v : ℕ) (hv : v < 2 ^ 24) :
    decode_govee_temp v =
      if v &&& 0x800000 ≠ 0 then -((((v ^^^ 0x800000) / 1000 : ℕ) : ℚ) / 10)
      else ((v / 1000 : ℕ) : ℚ) / 10 := by
  rw [decode_govee_temp]
  split
  · rw [div_neg]
  · rfl

/-- Witness for C3 at the 24-bit value 0x812345 (0x800000 bit set). -/
theorem decode_govee_temp_formula_witness :
    decode_govee_temp 0x812345 =
      if (0x812345 : ℕ) &&& 0x800000 ≠ 0 then
        -(((((0x812345 : ℕ) ^^^ 0x800000) / 1000 : ℕ) : ℚ) / 10)
      else (((0x812345 : ℕ) / 1000 : ℕ) : ℚ) / 10 :=
  decode_govee_temp_formula 0x812345 (by norm_num)

/-- C4 counterexample: 0x800000 has the sign bit set (a negative-magnitude
encoding) but decodes to 0, which is not strictly below 0. -/
theorem decode_govee_temp_nonneg_cex :
    (0x800000 : ℕ) &&& 0x800000 ≠ 0 ∧ (0x800000 : ℕ) < 2 ^ 24 ∧
      ¬ decode_govee_temp 0x800000 < 0 := by
  refine ⟨by decide, by norm_num, ?_⟩
  rw [decode_govee_temp, if_pos (by decide : (0x800000 : ℕ) &&& 0x800000 ≠ 0)]
  norm_num [show (0x800000 : ℕ) ^^^ 0x800000 = 0 from by decide]

/-- C4 amended: a 24-bit value with the 0x800000 bit set decodes to a
temperature that is at most 0, and strictly below 0 as soon as the encoded
magnitude (value xor 0x800000) is at least 1000. -/
theorem decode_govee_temp_neg_bit_nonpos (v : ℕ) (hv : v < 2 ^ 24)
    (hbit : v &&& 0x800000 ≠ 0) :
    decode_govee_temp v ≤ 0 ∧ (1000 ≤ v ^^^ 0x800000 → decode_govee_temp v < 0) := by
  rw [decode_govee_temp, if_pos hbit]
  constructor
  · rw [div_nonpos_iff]
    exact Or.inl ⟨Nat.cast_nonneg _, by norm_num⟩
  · intro hmag
    apply div_neg_of_pos_of_neg
    · have h1 : 1 ≤ (v ^^^ 0x800000) / 1000 := (Nat.one_le_div_iff (by norm_num)).2 hmag
      have h2 : (1 : ℚ) ≤ (((v ^^^ 0x800000) / 1000 : ℕ) : ℚ) := by exact_mod_cast h1
      linarith
    · norm_num

/-- Witness for the amended C4 at 0x801388 (magnitude 0x1388 = 5000). -/
theorem decode_govee_temp_neg_bit_nonpos_witness :
    decode_govee_temp 0x801388 ≤ 0 ∧
      (1000 ≤ (0x801388 : ℕ) ^^^ 0x800000 → decode_govee_temp 0x801388 < 0) :=
  decode_govee_temp_neg_bit_nonpos 0x801388 (by norm_num) (by decide)

/-- C1 (amended): parsing an advertisement whose manufacturer payload has
length 20, Flags 6 and leading bytes 0x00 0x10 with brand Moat decodes
temperature, humidity, battery millivolts, battery percentage (the Python
`int` truncation of the clamped rescale) and the hex packet string from the
payload. `-46.85 = -4685/100`, `175.72 = 17572/100` exactly. -/
theorem moat_s2_decode (data : List ℕ) (st : GapState)
    (hw : gapWalk data = some (st, false)) (P : List ℕ)
    (hm : st.mfg_data = some P) (hlen : P.length = 20) (hfl : st.flags = 6)
    (h0 : P.take 2 = [0x00, 0x10]) :
    (parse_ble_advertisement data DeviceBrand.MOAT).temperature =
      some (-(4685/100) +
        (17572/100) * ((little_endian_to_unsigned_int (pySlice P 12 14) : ℚ) / 65536)) ∧
    (parse_ble_advertisement data DeviceBrand.MOAT).humidity =
      some (-6 + 125 * ((little_endian_to_unsigned_int (pySlice P 14 16) : ℚ) / 65536)) ∧
    (parse_ble_advertisement data DeviceBrand.MOAT).battery_millivolts =
      some (little_endian_to_unsigned_int (pySlice P 16 18)) ∧
    (parse_ble_advertisement data DeviceBrand.MOAT).battery =
      some (pyInt (moat_s2_battery_voltage_to_percentage
        (little_endian_to_unsigned_int (pySlice P 16 18)))) ∧
    (parse_ble_advertisement data DeviceBrand.MOAT).packet =
      some (PacketVal.hexstr (hex_string (pySlice P 8 18))) := by
  have hne : data ≠ [] := by
    intro hd
    subst hd
    simp only [show gapWalk ([] : List ℕ) = some (initGapState, false) from rfl,
      Option.some.injEq, Prod.mk.injEq, and_true] at hw
    rw [← hw] at hm
    simp [initGapState] at hm
  have hcheck : check_is_moat_s2 st = true := by
    simp only [check_is_moat_s2, mfg_data_check, mfg_data_service_uuid_check, hm, hlen, hfl,
      pySlice, List.drop_zero, Nat.sub_zero, h0]
    rfl
  rcases hgl : data.getLast? with _ | lb
  · exact absurd (List.getLast?_eq_none_iff.1 hgl) hne
  · simp only [parse_ble_advertisement, hgl, parseRest, hw, Option.getD_some,
      Bool.false_eq_true, if_false]
    rw [decodeMfg, if_pos ⟨rfl, hcheck⟩, hm]
    exact ⟨rfl, rfl, rfl, rfl, rfl⟩

/-- A Moat S2 manufacturer payload whose battery field reads 2790 mV. -/
def moatPayload : List ℕ :=
  [0x00, 0x10, 0, 0, 0, 0, 0, 0, 0x01, 0x02, 0x03, 0x04,
   0x34, 0x12, 0x45, 0x23, 0xE6, 0x0A, 0x00, 0x00]

/-- A raw advertisement carrying `moatPayload` as its Manufacturer Data GAP
record (header, one GAP record, trailing RSSI byte). -/
def moatData : List ℕ :=
  [0x01, 0x00, 0x01, 0x11, 0x22, 0x33, 0x44, 0x55, 0x66, 0x16, 0x15, 0xFF]
    ++ moatPayload ++ [0xC5]

/-- C1 counterexample: at battery voltage 2790 mV the clamped rescale value is
50.5, but the parser stores the truncated percentage 50, so the stored battery
percentage does not equal the rescale value. -/
theorem moat_s2_battery_truncation_cex :
    (parse_ble_advertisement moatData DeviceBrand.MOAT).battery_millivolts = some 2790 ∧
    (parse_ble_advertisement moatData DeviceBrand.MOAT).battery = some 50 ∧
    moat_s2_battery_voltage_to_percentage 2790 = 101/2 ∧
    ((50 : ℚ) ≠ 101/2) := by
  refine ⟨rfl, ?_, ?_, by norm_num⟩
  · have h : (parse_ble_advertisement moatData DeviceBrand.MOAT).battery
        = some (pyInt (moat_s2_battery_voltage_to_percentage 2790)) := rfl
    rw [h]
    congr 1
    rw [moat_s2_battery_voltage_to_percentage, rescale_clamped, pyInt]
    norm_num
  · rw [moat_s2_battery_voltage_to_percentage, rescale_clamped]
    norm_num

/-- Witness for the amended C1 on the concrete buffer `moatData`. -/
theorem moat_s2_decode_witness :
    (parse_ble_advertisement moatData DeviceBrand.MOAT).temperature =
      some (-(4685/100) +
        (17572/100) * ((little_endian_to_unsigned_int (pySlice moatPayload 12 14) : ℚ) / 65536)) ∧
    (parse_ble_advertisement moatData DeviceBrand.MOAT).humidity =
      some (-6 + 125 * ((little_endian_to_unsigned_int (pySlice moatPayload 14 16) : ℚ) / 65536)) ∧
    (parse_ble_advertisement moatData DeviceBrand.MOAT).battery_millivolts =
      some (little_endian_to_unsigned_int (pySlice moatPayload 16 18)) ∧
    (parse_ble_advertisement moatData DeviceBrand.MOAT).battery =
      some (pyInt (moat_s2_battery_voltage_to_percentage
        (little_endian_to_unsigned_int (pySlice moatPayload 16 18)))) ∧
    (parse_ble_advertisement moatData DeviceBrand.MOAT).packet =
      some (PacketVal.hexstr (hex_string (pySlice moatPayload 8 18))) :=
  moat_s2_decode moatData ⟨6, none, some moatPayload⟩ rfl moatPayload rfl rfl rfl rfl

/-- A raw advertisement whose manufacturer payload has exact length 6 and
whose Flags GAP record carries the value 6. -/
def govee6Data : List ℕ :=
  [0x01, 0x00, 0x00, 1, 2, 3, 4, 5, 6, 9, 0x02, 0x01, 0x06, 0x07, 0xFF,
   0x11, 0x22, 0x33, 0x44, 0x55, 0x66, 0xC8]

/-- C2 counterexample: a manufacturer payload of exact length 6 with Flags
value 6, parsed with brand Govee, matches neither `check_is_gvh5074` (which
requires length 9) nor `check_is_gvh5051` (length 11) nor any other signature,
so nothing is decoded — contradicting the claim that length 6 with Flags 6
selects the H5074/H5051 decoder. -/
theorem gvh5074_length6_cex :
    (parse_ble_advertisement govee6Data DeviceBrand.GOVEE).mfg_data =
      some [0x11, 0x22, 0x33, 0x44, 0x55, 0x66] ∧
    (parse_ble_advertisement govee6Data DeviceBrand.GOVEE).flags = some 6 ∧
    check_is_gvh5074 ⟨6, none, some [0x11, 0x22, 0x33, 0x44, 0x55, 0x66]⟩ = false ∧
    check_is_gvh5051 ⟨6, none, some [0x11, 0x22, 0x33, 0x44, 0x55, 0x66]⟩ = false ∧
    (parse_ble_advertisement govee6Data DeviceBrand.GOVEE).temperature = none ∧
    (parse_ble_advertisement govee6Data DeviceBrand.GOVEE).humidity = none ∧
    (parse_ble_advertisement govee6Data DeviceBrand.GOVEE).battery = none ∧
    (parse_ble_advertisement govee6Data DeviceBrand.GOVEE).model = none :=
  ⟨rfl, rfl, rfl, rfl, rfl, rfl, rfl, rfl⟩

/-- C2 (amended): with brand Govee, after the more specific H5075/H5072 and
H5102/H5101 signatures fail, a manufacturer payload of exact length 9 (H5074)
or 11 (H5051) with Flags value 6 matches the length-only H5074/H5051 fallback,
which decodes payload bytes 3..6 as two byte-swapped 16-bit halves
(temperature two's complement over 16 bits, both divided by 100) and battery
from payload byte 7. -/
theorem gvh5074_gvh5051_decode (data : List ℕ) (st : GapState)
    (hw : gapWalk data = some (st, false)) (P : List ℕ)
    (hm : st.mfg_data = some P) (hfl : st.flags = 6)
    (hlen : P.length = 9 ∨ P.length = 11) :
    (parse_ble_advertisement data DeviceBrand.GOVEE).temperature =
      some (((twos_complement (P.getD 4 0 * 256 + P.getD 3 0) 16 : ℤ) : ℚ) / 100) ∧
    (parse_ble_advertisement data DeviceBrand.GOVEE).humidity =
      some (((P.getD 6 0 * 256 + P.getD 5 0 : ℕ) : ℚ) / 100) ∧
    (parse_ble_advertisement data DeviceBrand.GOVEE).battery =
      some ((P.getD 7 0 : ℕ) : ℤ) ∧
    (parse_ble_advertisement data DeviceBrand.GOVEE).model = some "Govee H5074/H5051" ∧
    (parse_ble_advertisement data DeviceBrand.GOVEE).packet =
      some (PacketVal.hexstr
        (hex_string [P.getD 4 0, P.getD 3 0, P.getD 6 0, P.getD 5 0])) := by
  have hne : data ≠ [] := by
    intro hd
    subst hd
    simp only [show gapWalk ([] : List ℕ) = some (initGapState, false) from rfl,
      Option.some.injEq, Prod.mk.injEq, and_true] at hw
    rw [← hw] at hm
    simp [initGapState] at hm
  have h75 : check_is_gvh5075_gvh5072 st = false := by
    simp only [check_is_gvh5075_gvh5072, mfg_data_check, hm, Bool.and_eq_false_iff]
    left
    rcases hlen with h | h <;> simp [h]
  have h02 : check_is_gvh5102 st = false := by
    simp only [check_is_gvh5102, mfg_data_check, hm, Bool.and_eq_false_iff]
    left
    rcases hlen with h | h <;> simp [h]
  have h74 : (check_is_gvh5074 st || check_is_gvh5051 st) = true := by
    simp only [check_is_gvh5074, check_is_gvh5051, mfg_data_check, hm, hfl]
    rcases hlen with h | h <;> simp [h]
  rcases hgl : data.getLast? with _ | lb
  · exact absurd (List.getLast?_eq_none_iff.1 hgl) hne
  · simp only [parse_ble_advertisement, hgl, parseRest, hw, Option.getD_some,
      Bool.false_eq_true, if_false]
    rw [decodeMfg, if_neg (by simp), if_pos rfl, if_neg (by simp [h75]),
      if_neg (by simp [h02]), if_pos h74, hm]
    exact ⟨rfl, rfl, rfl, rfl, rfl⟩

/-- A raw advertisement whose manufacturer payload has length 9 (a Govee
H5074-shaped payload) with the default Flags value 6. -/
def govee74Data : List ℕ :=
  [0x01, 0x00, 0x00, 0xAA, 0xBB, 0xCC, 0xDD, 0xEE, 0xFF, 0x0C, 0x0A, 0xFF,
   0x88, 0xEC, 0x00, 0x14, 0x08, 0xE2, 0x18, 0x64, 0x02, 0xC8]

/-- Witness for the amended C2 on the concrete H5074 buffer `govee74Data`. -/
theorem gvh5074_gvh5051_decode_witness :
    (parse_ble_advertisement govee74Data DeviceBrand.GOVEE).temperature =
      some (((twos_complement (0x08 * 256 + 0x14) 16 : ℤ) : ℚ) / 100) ∧
    (parse_ble_advertisement govee74Data DeviceBrand.GOVEE).humidity =
      some (((0x18 * 256 + 0xE2 : ℕ) : ℚ) / 100) ∧
    (parse_ble_advertisement govee74Data DeviceBrand.GOVEE).battery =
      some ((0x64 : ℕ) : ℤ) ∧
    (parse_ble_advertisement govee74Data DeviceBrand.GOVEE).model =
      some "Govee H5074/H5051" ∧
    (parse_ble_advertisement govee74Data DeviceBrand.GOVEE).packet =
      some (PacketVal.hexstr (hex_string [0x08, 0x14, 0x18, 0xE2])) :=
  gvh5074_gvh5051_decode govee74Data
    ⟨6, none, some [0x88, 0xEC, 0x00, 0x14, 0x08, 0xE2, 0x18, 0x64, 0x02]⟩ rfl
    [0x88, 0xEC, 0x00, 0x14, 0x08, 0xE2, 0x18, 0x64, 0x02] rfl rfl (Or.inl rfl)

/-- C6: for every input byte buffer and brand, when the extracted manufacturer
payload matches none of the five known signatures, the parse result has
temperature, humidity, battery, battery millivolts and packet all unset (and
the total function `parse_ble_advertisement` returns normally — every Python
exception on this path is caught inside `__init__`). -/
theorem no_match_all_fields_unset (data : List ℕ) (brand : DeviceBrand)
    (st : GapState) (ab : Bool) (hw : gapWalk data = some (st, ab))
    (h1 : check_is_moat_s2 st = false)
    (h2 : check_is_gvh5075_gvh5072 st = false)
    (h3 : check_is_gvh5102 st = false)
    (h4 : check_is_gvh5074 st = false)
    (h5 : check_is_gvh5051 st = false) :
    (parse_ble_advertisement data brand).temperature = none ∧
    (parse_ble_advertisement data brand).humidity = none ∧
    (parse_ble_advertisement data brand).battery = none ∧
    (parse_ble_advertisement data brand).battery_millivolts = none ∧
    (parse_ble_advertisement data brand).packet = none := by
  rcases hgl : data.getLast? with _ | lb
  · simp only [parse_ble_advertisement, hgl]
    simp
  · simp only [parse_ble_advertisement, hgl, parseRest, hw, Option.getD_some]
    rcases ab with _ | _
    · simp only [Bool.false_eq_true, if_false]
      rcases brand with _ | _
      · rw [decodeMfg, if_neg (by simp [h1]), if_neg (by simp)]
        exact ⟨rfl, rfl, rfl, rfl, rfl⟩
      · rw [decodeMfg, if_neg (by simp [h1]), if_pos rfl, if_neg (by simp [h2]),
          if_neg (by simp [h3]), if_neg (by simp [h4, h5])]
        exact ⟨rfl, rfl, rfl, rfl, rfl⟩
    · simp only [if_true]
      simp

/-- A raw advertisement whose manufacturer payload has length 5 with the
default Flags value 6: it matches none of the five known signatures. -/
def unmatchedData : List ℕ :=
  [0x01, 0x00, 0x00, 1, 2, 3, 4, 5, 6, 8, 0x06, 0xFF, 1, 2, 3, 4, 5, 0xC0]

/-- Witness for C6 on the concrete buffer `unmatchedData` with brand Govee. -/
theorem no_match_all_fields_unset_witness :
    (parse_ble_advertisement unmatchedData DeviceBrand.GOVEE).temperature = none ∧
    (parse_ble_advertisement unmatchedData DeviceBrand.GOVEE).humidity = none ∧
    (parse_ble_advertisement unmatchedData DeviceBrand.GOVEE).battery = none ∧
    (parse_ble_advertisement unmatchedData DeviceBrand.GOVEE).battery_millivolts = none ∧
    (parse_ble_advertisement unmatchedData DeviceBrand.GOVEE).packet = none :=
  no_match_all_fields_unset unmatchedData DeviceBrand.GOVEE
    ⟨6, none, some [1, 2, 3, 4, 5]⟩ false rfl rfl rfl rfl rfl rfl

/-- `update` touches the temperature list only through its temperature step. -/
theorem update_temperature_eq (d : SensorDevice) (t h : Option ℚ)
    (bp mv : Option ℤ) (p : Option PacketVal) :
    (d.update t h bp mv p).temperature_measurements =
      (recordTemperature d t).temperature_measurements := by
  rcases h with _ | hv <;> rcases bp with _ | bv <;> rcases mv with _ | mvv <;>
    simp only [SensorDevice.update, recordHumidity, recordBatteryPercentage,
      recordBatteryMillivolts] <;>
    first | rfl | (split_ifs <;> rfl)

/-- `update` touches the humidity list only through its humidity step, whose
bounds do not depend on the device state. -/
theorem update_humidity_eq (d : SensorDevice) (t h : Option ℚ)
    (bp mv : Option ℤ) (p : Option PacketVal) :
    (d.update t h bp mv p).humidity_measurements =
      (recordHumidity d h).humidity_measurements := by
  rcases t with _ | tv <;> rcases h with _ | hv <;> rcases bp with _ | bv <;>
    rcases mv with _ | mvv <;>
    simp only [SensorDevice.update, recordTemperature, recordHumidity,
      recordBatteryPercentage, recordBatteryMillivolts] <;>
    first | rfl | (split_ifs <;> rfl)

/-- `update` touches the battery-percentage list only through its own step. -/
theorem update_battery_percentage_eq (d : SensorDevice) (t h : Option ℚ)
    (bp mv : Option ℤ) (p : Option PacketVal) :
    (d.update t h bp mv p).battery_percentage_measurements =
      (recordBatteryPercentage d bp).battery_percentage_measurements := by
  rcases t with _ | tv <;> rcases h with _ | hv <;> rcases bp with _ | bv <;>
    rcases mv with _ | mvv <;>
    simp only [SensorDevice.update, recordTemperature, recordHumidity,
      recordBatteryPercentage, recordBatteryMillivolts] <;>
    first | rfl | (split_ifs <;> rfl)

/-- `update` touches the battery-millivolt list only through its own step. -/
theorem update_battery_millivolt_eq (d : SensorDevice) (t h : Option ℚ)
    (bp mv : Option ℤ) (p : Option PacketVal) :
    (d.update t h bp mv p).battery_millivolt_measurements =
      (recordBatteryMillivolts d mv).battery_millivolt_measurements := by
  rcases t with _ | tv <;> rcases h with _ | hv <;> rcases bp with _ | bv <;>
    rcases mv with _ | mvv <;>
    simp only [SensorDevice.update, recordTemperature, recordHumidity,
      recordBatteryPercentage, recordBatteryMillivolts] <;>
    first | rfl | (split_ifs <;> rfl)

/-- `update` never touches the RSSI list. -/
theorem update_rssi_eq (d : SensorDevice) (t h : Option ℚ)
    (bp mv : Option ℤ) (p : Option PacketVal) :
    (d.update t h bp mv p).rssi_measurements = d.rssi_measurements := by
  rcases t with _ | tv <;> rcases h with _ | hv <;> rcases bp with _ | bv <;>
    rcases mv with _ | mvv <;>
    simp only [SensorDevice.update, recordTemperature, recordHumidity,
      recordBatteryPercentage, recordBatteryMillivolts] <;>
    first | rfl | (split_ifs <;> rfl)

/-- `update` never changes the configured temperature range. -/
theorem update_temp_range_eq (d : SensorDevice) (t h : Option ℚ)
    (bp mv : Option ℤ) (p : Option PacketVal) :
    (d.update t h bp mv p).temp_range_min = d.temp_range_min ∧
      (d.update t h bp mv p).temp_range_max = d.temp_range_max := by
  rcases t with _ | tv <;> rcases h with _ | hv <;> rcases bp with _ | bv <;>
    rcases mv with _ | mvv <;>
    simp only [SensorDevice.update, recordTemperature, recordHumidity,
      recordBatteryPercentage, recordBatteryMillivolts] <;>
    first | (split_ifs <;> exact ⟨by trivial, by trivial⟩) | exact ⟨by trivial, by trivial⟩

/-- `append_rssi` touches nothing but the RSSI list. -/
theorem append_rssi_frame (d : SensorDevice) (v : Option ℤ) :
    (d.append_rssi v).temperature_measurements = d.temperature_measurements ∧
    (d.append_rssi v).humidity_measurements = d.humidity_measurements ∧
    (d.append_rssi v).battery_percentage_measurements = d.battery_percentage_measurements ∧
    (d.append_rssi v).temp_range_min = d.temp_range_min ∧
    (d.append_rssi v).temp_range_max = d.temp_range_max := by
  rcases v with _ | x <;> simp only [SensorDevice.append_rssi] <;>
    first
      | (split_ifs <;> exact ⟨by trivial, by trivial, by trivial, by trivial, by trivial⟩)
      | exact ⟨by trivial, by trivial, by trivial, by trivial, by trivial⟩

/-- Each aggregator call preserves the range invariant of every sample list. -/
theorem measurementInvariant_applyOp (d : SensorDevice) (op : DeviceOp)
    (hinv : measurementInvariant d) : measurementInvariant (applyOp d op) := by
  obtain ⟨h1, h2, h3, h4⟩ := hinv
  rcases op with ⟨t, h, bp, mv, p⟩ | v
  · simp only [applyOp]
    refine ⟨?_, ?_, ?_, ?_⟩
    · intro x hx
      rw [(update_temp_range_eq d t h bp mv p).1, (update_temp_range_eq d t h bp mv p).2]
      rw [update_temperature_eq] at hx
      rcases t with _ | tv
      · exact h1 x hx
      · rw [recordTemperature] at hx
        split_ifs at hx with hc
        · simp only [List.mem_append, List.mem_singleton] at hx
          rcases hx with hx' | hx'
          · exact h1 x hx'
          · rw [hx']; exact hc
        · exact h1 x hx
    · intro x hx
      rw [update_humidity_eq] at hx
      rcases h with _ | hv
      · exact h2 x hx
      · rw [recordHumidity] at hx
        split_ifs at hx with hc
        · simp only [List.mem_append, List.mem_singleton] at hx
          rcases hx with hx' | hx'
          · exact h2 x hx'
          · rw [hx']; exact hc
        · exact h2 x hx
    · intro x hx
      rw [update_battery_percentage_eq] at hx
      rcases bp with _ | bv
      · exact h3 x hx
      · rw [recordBatteryPercentage] at hx
        split_ifs at hx with hc
        · simp only [List.mem_append, List.mem_singleton] at hx
          rcases hx with hx' | hx'
          · exact h3 x hx'
          · rw [hx']; exact hc
        · exact h3 x hx
    · intro x hx
      rw [update_rssi_eq] at hx
      exact h4 x hx
  · simp only [applyOp]
    refine ⟨?_, ?_, ?_, ?_⟩
    · intro x hx
      rw [(append_rssi_frame d v).1] at hx
      rw [(append_rssi_frame d v).2.2.2.1, (append_rssi_frame d v).2.2.2.2]
      exact h1 x hx
    · intro x hx
      rw [(append_rssi_frame d v).2.1] at hx
      exact h2 x hx
    · intro x hx
      rw [(append_rssi_frame d v).2.2.1] at hx
      exact h3 x hx
    · intro x hx
      rcases v with _ | w
      · exact h4 x hx
      · rw [SensorDevice.append_rssi] at hx
        split_ifs at hx with hc
        · simp only [List.mem_append, List.mem_singleton] at hx
          rcases hx with hx' | hx'
          · exact h4 x hx'
          · rw [hx']; exact hc
        · exact h4 x hx

/-- The invariant is preserved by any sequence of aggregator calls. -/
theorem measurementInvariant_runOps (ops : List DeviceOp) :
    ∀ d : SensorDevice, measurementInvariant d → measurementInvariant (runOps d ops) := by
  induction ops with
  | nil => intro d h; exact h
  | cons op rest ih =>
    intro d h
    exact ih (applyOp d op) (measurementInvariant_applyOp d op h)

/-- A freshly created device satisfies the invariant (all lists empty). -/
theorem measurementInvariant_mkSensorDevice (mac : String) (p : CreateDeviceParams) :
    measurementInvariant (mkSensorDevice mac p) := by
  refine ⟨?_, ?_, ?_, ?_⟩ <;> intro x hx <;>
    simp [mkSensorDevice, SensorDevice.reset] at hx

/-- C7: over any sequence of `update` and `append_rssi` calls on a freshly
created device, every accepted temperature sample lies in the configured
range, every humidity sample in [0, 99.9], every battery percentage in
[0, 100], every RSSI is strictly negative; and an absent or out-of-range
input never grows the corresponding list. -/
theorem sensor_device_range_invariant (mac : String) (params : CreateDeviceParams)
    (ops : List DeviceOp) :
    measurementInvariant (runOps (mkSensorDevice mac params) ops) ∧
    (∀ (d : SensorDevice) (t h : Option ℚ) (bp mv : Option ℤ) (p : Option PacketVal),
      (t = none ∨ ∀ x, t = some x → ¬(d.temp_range_min ≤ x ∧ x ≤ d.temp_range_max)) →
      (d.update t h bp mv p).temperature_measurements = d.temperature_measurements) ∧
    (∀ (d : SensorDevice) (t h : Option ℚ) (bp mv : Option ℤ) (p : Option PacketVal),
      (h = none ∨ ∀ x, h = some x → ¬(HUMIDITY_MIN ≤ x ∧ x ≤ HUMIDITY_MAX)) →
      (d.update t h bp mv p).humidity_measurements = d.humidity_measurements) ∧
    (∀ (d : SensorDevice) (t h : Option ℚ) (bp mv : Option ℤ) (p : Option PacketVal),
      (bp = none ∨ ∀ x, bp = some x → ¬(0 ≤ x ∧ x ≤ 100)) →
      (d.update t h bp mv p).battery_percentage_measurements =
        d.battery_percentage_measurements) ∧
    (∀ (d : SensorDevice) (v : Option ℤ),
      (v = none ∨ ∀ x, v = some x → ¬ x < 0) →
      (d.append_rssi v).rssi_measurements = d.rssi_measurements) := by
  refine ⟨measurementInvariant_runOps ops _ (measurementInvariant_mkSensorDevice mac params),
    ?_, ?_, ?_, ?_⟩
  · intro d t h bp mv p hcond
    rw [update_temperature_eq]
    rcases t with _ | tv
    · rfl
    · simp only [recordTemperature]
      rcases hcond with hc | hc
      · exact absurd hc (by simp)
      · rw [if_neg (hc tv rfl)]
  · intro d t h bp mv p hcond
    rw [update_humidity_eq]
    rcases h with _ | hv
    · rfl
    · simp only [recordHumidity]
      rcases hcond with hc | hc
      · exact absurd hc (by simp)
      · rw [if_neg (hc hv rfl)]
  · intro d t h bp mv p hcond
    rw [update_battery_percentage_eq]
    rcases bp with _ | bv
    · rfl
    · simp only [recordBatteryPercentage]
      rcases hcond with hc | hc
      · exact absurd hc (by simp)
      · rw [if_neg (hc bv rfl)]
  · intro d v hcond
    rcases v with _ | w
    · rfl
    · simp only [SensorDevice.append_rssi]
      rcases hcond with hc | hc
      · exact absurd hc (by simp)
      · rw [if_neg (hc w rfl)]

/-- A configuration used by the aggregator witnesses. -/
def paramsW : CreateDeviceParams :=
  { report_fahrenheit := false, decimal_places := none, log_spikes := true,
    temp_range_min := -45, temp_range_max := 70 }

/-- A call sequence with in-range and out-of-range samples. -/
def opsW : List DeviceOp :=
  [DeviceOp.upd (some 20) (some 55) (some 80) (some 3000) none,
   DeviceOp.upd (some 1000) (some 200) (some 150) none none,
   DeviceOp.appendRssi (some (-60)), DeviceOp.appendRssi (some 5)]

/-- Witness for C7: the invariant after a concrete call sequence, and the
non-growth of the temperature and RSSI lists on out-of-range inputs. -/
theorem sensor_device_range_invariant_witness :
    measurementInvariant (runOps (mkSensorDevice "A4:C1:38:00:00:01" paramsW) opsW) ∧
    (SensorDevice.update (mkSensorDevice "A4:C1:38:00:00:01" paramsW) (some 1000) none none
        none none).temperature_measurements =
      (mkSensorDevice "A4:C1:38:00:00:01" paramsW).temperature_measurements ∧
    (SensorDevice.append_rssi (mkSensorDevice "A4:C1:38:00:00:01" paramsW)
        (some 5)).rssi_measurements =
      (mkSensorDevice "A4:C1:38:00:00:01" paramsW).rssi_measurements := by
  refine ⟨(sensor_device_range_invariant "A4:C1:38:00:00:01" paramsW opsW).1,
    (sensor_device_range_invariant "A4:C1:38:00:00:01" paramsW opsW).2.1
      _ _ none none none none (Or.inr ?_),
    (sensor_device_range_invariant "A4:C1:38:00:00:01" paramsW opsW).2.2.2.2
      _ _ (Or.inr ?_)⟩
  · intro x hx
    injection hx with hx'
    subst hx'
    simp only [mkSensorDevice, SensorDevice.reset, paramsW]
    norm_num
  · intro x hx
    injection hx with hx'
    subst hx'
    norm_num

/-- C8: with a nonempty accepted temperature list, Fahrenheit reporting on and
rounding to `dp` decimal places, the reported mean temperature is the rounding
of (Fahrenheit conversion of the mean of the samples) plus the calibration
offset: the offset is added after unit conversion and before rounding. -/
theorem mean_temperature_calibration (d : SensorDevice) (dp : ℤ)
    (hne : d.temperature_measurements ≠ []) (hf : d.report_fahrenheit = true)
    (hdp : d.decimal_places = some dp) :
    d.mean_temperature =
      some (pyRoundTo (celsius_to_fahrenheit
          (d.temperature_measurements.sum / d.temperature_measurements.length)
        + d.calibrate_temp) dp) := by
  rw [SensorDevice.mean_temperature, stsMean, if_neg hne, hf, hdp]
  rfl

/-- A device holding two accepted temperature samples, Fahrenheit mode, offset
0.5 °F, rounding to 2 decimal places. -/
def devW : SensorDevice :=
  { mac := "A4:C1:38:00:00:02", detected_model := none, desc := none,
    report_fahrenheit := true, decimal_places := some 2, log_spikes := false,
    temp_range_min := -45, temp_range_max := 70, calibrate_temp := 1/2,
    calibrate_humidity := 0, num_measurements := 2, rssi_measurements := [],
    temperature_measurements := [20, 21], humidity_measurements := [],
    battery_percentage_measurements := [], battery_millivolt_measurements := [],
    latest_raw_data_str := none }

/-- Witness for C8 on the concrete device `devW`. -/
theorem mean_temperature_calibration_witness :
    devW.mean_temperature =
      some (pyRoundTo (celsius_to_fahrenheit
          (devW.temperature_measurements.sum / devW.temperature_measurements.length)
        + devW.calibrate_temp) 2) :=
  mean_temperature_calibration devW 2 (by simp [devW]) rfl rfl

/-- C9: after `reset()`, every reduction of the emptied aggregator is absent
(`none`, never zero) and the last-raw-data field is cleared. -/
theorem reset_all_reductions_absent (d : SensorDevice) :
    (d.reset).mean_temperature = none ∧ (d.reset).median_temperature = none ∧
    (d.reset).mean_humidity = none ∧ (d.reset).median_humidity = none ∧
    (d.reset).battery_percentage = none ∧ (d.reset).battery_millivolts = none ∧
    (d.reset).rssi = none ∧ (d.reset).latest_raw_data_str = none :=
  ⟨rfl, rfl, rfl, rfl, rfl, rfl, rfl, rfl⟩

/-- C10: every humidity decoded from a Govee packed payload (H5075/H5072 or
H5102/H5101 signature) is `(packet mod 1000) / 10`, which lies in
[0, 99.9] = [HUMIDITY_MIN, HUMIDITY_MAX], so the aggregator's humidity range
check always accepts it (the list always grows by exactly that sample). -/
theorem govee_packed_humidity_in_range (data : List ℕ) (st : GapState)
    (hw : gapWalk data = some (st, false))
    (hchk : check_is_gvh5075_gvh5072 st = true ∨ check_is_gvh5102 st = true) :
    ∃ hq : ℚ, (parse_ble_advertisement data DeviceBrand.GOVEE).humidity = some hq ∧
      HUMIDITY_MIN ≤ hq ∧ hq ≤ HUMIDITY_MAX ∧
      ∀ (d : SensorDevice) (t : Option ℚ) (bp mv : Option ℤ) (p : Option PacketVal),
        (SensorDevice.update d t (some hq) bp mv p).humidity_measurements =
          d.humidity_measurements ++ [hq] := by
  have hne : data ≠ [] := by
    intro hd
    subst hd
    simp only [show gapWalk ([] : List ℕ) = some (initGapState, false) from rfl,
      Option.some.injEq, Prod.mk.injEq, and_true] at hw
    rw [← hw] at hchk
    simp [check_is_gvh5075_gvh5072, check_is_gvh5102, mfg_data_check, initGapState] at hchk
  have hbound : ∀ n : ℕ, HUMIDITY_MIN ≤ ((n % 1000 : ℕ) : ℚ) / 10 ∧
      ((n % 1000 : ℕ) : ℚ) / 10 ≤ HUMIDITY_MAX := by
    intro n
    constructor
    · rw [HUMIDITY_MIN]
      positivity
    · rw [HUMIDITY_MAX, div_le_div_iff₀ (by norm_num) (by norm_num)]
      have h1 : (n % 1000 : ℕ) ≤ 999 := Nat.lt_succ_iff.mp (Nat.mod_lt n (by norm_num))
      have h2 : ((n % 1000 : ℕ) : ℚ) ≤ 999 := by exact_mod_cast h1
      linarith
  have happend : ∀ hq : ℚ, HUMIDITY_MIN ≤ hq → hq ≤ HUMIDITY_MAX →
      ∀ (d : SensorDevice) (t : Option ℚ) (bp mv : Option ℤ) (p : Option PacketVal),
        (SensorDevice.update d t (some hq) bp mv p).humidity_measurements =
          d.humidity_measurements ++ [hq] := by
    intro hq hmin hmax d t bp mv p
    rw [update_humidity_eq]
    simp only [recordHumidity]
    rw [if_pos ⟨hmin, hmax⟩]
  rcases hgl : data.getLast? with _ | lb
  · exact absurd (List.getLast?_eq_none_iff.1 hgl) hne
  · by_cases h75 : check_is_gvh5075_gvh5072 st = true
    · refine ⟨((hexValueBE (pySlice (st.mfg_data.getD []) 3 6) % 1000 : ℕ) : ℚ) / 10,
        ?_, (hbound _).1, (hbound _).2, happend _ (hbound _).1 (hbound _).2⟩
      simp only [parse_ble_advertisement, hgl, parseRest, hw, Option.getD_some,
        Bool.false_eq_true, if_false]
      rw [decodeMfg, if_neg (by simp), if_pos rfl, if_pos h75]
    · have h02 : check_is_gvh5102 st = true := hchk.resolve_left h75
      refine ⟨((hexValueBE (pySlice (st.mfg_data.getD []) 4 7) % 1000 : ℕ) : ℚ) / 10,
        ?_, (hbound _).1, (hbound _).2, happend _ (hbound _).1 (hbound _).2⟩
      simp only [parse_ble_advertisement, hgl, parseRest, hw, Option.getD_some,
        Bool.false_eq_true, if_false]
      rw [decodeMfg, if_neg (by simp), if_pos rfl, if_neg (by simp [h75]), if_pos h02]

/-- A raw advertisement with a Flags record of value 5 and an H5075-shaped
manufacturer payload (length 8, leading bytes 0x88 0xEC). -/
def govee75Data : List ℕ :=
  [0x01, 0x00, 0x00, 1, 2, 3, 4, 5, 6, 0x0D, 0x02, 0x01, 0x05, 0x09, 0xFF,
   0x88, 0xEC, 0x00, 0x03, 0x21, 0x5A, 0x64, 0x00, 0xC4]

/-- Witness for C10 on the concrete H5075 buffer `govee75Data`. -/
theorem govee_packed_humidity_in_range_witness :
    ∃ hq : ℚ, (parse_ble_advertisement govee75Data DeviceBrand.GOVEE).humidity = some hq ∧
      HUMIDITY_MIN ≤ hq ∧ hq ≤ HUMIDITY_MAX ∧
      ∀ (d : SensorDevice) (t : Option ℚ) (bp mv : Option ℤ) (p : Option PacketVal),
        (SensorDevice.update d t (some hq) bp mv p).humidity_measurements =
          d.humidity_measurements ++ [hq] :=
  govee_packed_humidity_in_range govee75Data
    ⟨5, none, some [0x88, 0xEC, 0x00, 0x03, 0x21, 0x5A, 0x64, 0x00]⟩ rfl (Or.inl rfl)
